import Mathlib

/-!
Verification of the recommendation lookup core of the bank-recsys service.

The embedding models the two near-duplicate Python implementations:

* `Recsys.handler_get_user_recs` — `FastApiHandler.get_user_recs` in
  `src/services/recsys_service/fastapi_handler.py` (catches only
  `IndexError`, truncates with a literal `7`, increments
  `new_clients_requests_count` in its fallback branch);
* `Recsys.app_get_user_recs` — `Recommendations.get_user_recs` in
  `src/services/recsys_service/fastapi_app.py` (two bare `except:` guards,
  truncates with `[:top_k]`, performs no stats increment in its fallback
  branch);
* `Recsys.handler_get_pop_recs` / `Recsys.app_get_default` — the
  popularity-default endpoints of the two files.

Python-level behaviours that matter to the claims are modelled explicitly:

* `pySliceTo xs k` is the Python slice `xs[:k]` (negative `k` keeps the first
  `len(xs)+k` elements — no clamping happens in the source);
* `argwhere v` is `np.argwhere(v)` flattened for a 1-D boolean vector: the
  list of indices holding `true`; the sources take `[0]` of it, i.e. only
  the FIRST flagged index, raising `IndexError` when no flag is set;
* label-indexing a pandas Series with a list containing a missing label
  raises `KeyError`; subscripting `None` (a table that never loaded)
  raises `TypeError`.

A `Tier` value tags which comment-labelled branch of the source produced
the result (personalized non-empty / "do-not-disturb" empty / popularity
fallback); the stats dictionary keys of the source are the three counter
fields of `RecState`.
-/

namespace Recsys

/-- Python exception kinds that the two implementations can raise or catch. -/
inductive PyErr
  | indexError
  | keyError
  | typeError
  deriving DecidableEq

/-- The three resolution tiers; each names one comment-labelled branch of
`get_user_recs` in the source. -/
inductive Tier
  | personalizedNonEmpty
  | personalizedEmpty
  | fallback
  deriving DecidableEq

/-- One row of the per-user prediction table `june_2016_recs`: the
`ncodpers` user id and the boolean vector of the 17
`*_added_pred` columns, in declaration order. -/
structure UserRow where
  ncodpers : Int
  flags : List Bool
  deriving DecidableEq

/-- The mutable state of a `FastApiHandler` / `Recommendations` object:
the two tables of the `_recs` dict (`none` until a successful `load`)
and the three counters of the `_stats` dict. -/
structure RecState where
  june_2016 : Option (List UserRow)
  default : Option (List String)
  existing_clients_with_recs_requests_count : Nat
  existing_clients_wo_recs_requests_count : Nat
  new_clients_requests_count : Nat
  deriving DecidableEq

/-- The 17 prediction column names selected by both sources; position `i`
of a `UserRow.flags` vector corresponds to entry `i` of this list and to
row `i` of the popularity table. -/
def topn_pop_prods_added_pred_cols : List String := [
  "ind_cco_fin_ult1_added_pred", "ind_recibo_ult1_added_pred",
  "ind_ctop_fin_ult1_added_pred", "ind_ecue_fin_ult1_added_pred",
  "ind_cno_fin_ult1_added_pred", "ind_nom_pens_ult1_added_pred",
  "ind_nomina_ult1_added_pred", "ind_reca_fin_ult1_added_pred",
  "ind_dela_fin_ult1_added_pred", "ind_tjcr_fin_ult1_added_pred",
  "ind_ctpp_fin_ult1_added_pred", "ind_valo_fin_ult1_added_pred",
  "ind_fond_fin_ult1_added_pred", "ind_ctma_fin_ult1_added_pred",
  "ind_ctju_fin_ult1_added_pred", "ind_plan_fin_ult1_added_pred",
  "ind_hip_fin_ult1_added_pred"]

/-- Python slice `xs[:k]` for an integer bound `k`: a non-negative bound
keeps the first `min k (length xs)` elements, a negative bound keeps the
first `length xs + k` elements (clamped at zero). -/
def pySliceTo {α : Type} (xs : List α) (k : Int) : List α :=
  if 0 ≤ k then xs.take k.toNat
  else xs.take (xs.length - (-k).toNat)

/-- Model of `np.argwhere` on a 1-D boolean vector, flattened: the indices whose
flag is `true`, in increasing order. -/
def argwhere (flags : List Bool) : List Nat :=
  (List.range flags.length).filter (fun i => flags.getD i false)

/-- Model of `june_2016_recs[june_2016_recs[ncodpers] == user_id]`: the rows of
the prediction table whose `ncodpers` equals `user_id`, in table order. -/
def filterUser (tbl : List UserRow) (uid : Int) : List UserRow :=
  tbl.filter (fun r => r.ncodpers == uid)

/-- Model of the row lookup `june_2016_recs[mask][cols].to_numpy()[0]`:
subscripting a never-loaded table (`None`) raises `TypeError`; taking row
`[0]` of an empty selection raises `IndexError`; otherwise the first
flag vector of the first matching row is produced. -/
def app_lookup_user (june : Option (List UserRow)) (uid : Int) :
    Except PyErr (List Bool) :=
  match june with
  | none => .error .typeError
  | some tbl =>
    match filterUser tbl uid with
    | [] => .error .indexError
    | r :: _ => .ok r.flags

/-- Model of `pop_ranked_prods[eng_name][idxs]` for a single-index array `[i]`:
`TypeError` when the popularity table never loaded, `KeyError` when label
`i` is absent from its index, otherwise the display name at rank `i`. -/
def pop_name_at (pop : Option (List String)) (i : Nat) :
    Except PyErr String :=
  match pop with
  | none => .error .typeError
  | some names =>
    match names.get? i with
    | none => .error .keyError
    | some name => .ok name

/-- Stats increment `self._stats["existing_clients_with_recs_requests_count"] += 1`. -/
def incWith (s : RecState) : RecState :=
  { s with existing_clients_with_recs_requests_count :=
      s.existing_clients_with_recs_requests_count + 1 }

/-- Stats increment `self._stats["existing_clients_wo_recs_requests_count"] += 1`. -/
def incWo (s : RecState) : RecState :=
  { s with existing_clients_wo_recs_requests_count :=
      s.existing_clients_wo_recs_requests_count + 1 }

/-- Stats increment `self._stats["new_clients_requests_count"] += 1`. -/
def incNew (s : RecState) : RecState :=
  { s with new_clients_requests_count := s.new_clients_requests_count + 1 }

/-- The counter of the `_stats` dict that corresponds to each tier. -/
def tierCount (s : RecState) : Tier → Nat
  | .personalizedNonEmpty => s.existing_clients_with_recs_requests_count
  | .personalizedEmpty => s.existing_clients_wo_recs_requests_count
  | .fallback => s.new_clients_requests_count

/-- Sum of the three request counters. -/
def statsSum (s : RecState) : Nat :=
  s.existing_clients_with_recs_requests_count +
  s.existing_clients_wo_recs_requests_count +
  s.new_clients_requests_count

/-- The inner `try:` body of `Recommendations.get_user_recs`
(fastapi_app.py lines 123-130): take the first flagged index via
`np.argwhere(topn_prods)[0]` (`IndexError` when the vector is all-false),
look its display name up in the popularity table, slice with `[:top_k]`. -/
def app_inner (pop : Option (List String)) (flags : List Bool)
    (top_k : Int) : Except PyErr (List String) :=
  match argwhere flags with
  | [] => .error .indexError
  | i :: _ =>
    match pop_name_at pop i with
    | .error e => .error e
    | .ok name => .ok (pySliceTo [name] top_k)

/-- Model of `Recommendations.get_user_recs` of fastapi_app.py (lines 112-142).
The outer bare `except:` turns ANY failure of the row lookup into the
popularity fallback (with NO stats increment); the inner bare `except:`
turns ANY failure after the row was found into the "do-not-disturb"
empty answer. The produced `Tier` names the branch that answered. -/
def app_get_user_recs (s : RecState) (uid : Int) (top_k : Int) :
    Except PyErr (List String × Tier × RecState) :=
  match app_lookup_user s.june_2016 uid with
  | .ok flags =>
    match app_inner s.default flags top_k with
    | .ok recs => .ok (recs, .personalizedNonEmpty, incWith s)
    | .error _ => .ok ([], .personalizedEmpty, incWo s)
  | .error _ =>
    match s.default with
    | none => .error .typeError
    | some pop => .ok (pySliceTo pop top_k, .fallback, s)

/-- The `try:` body of `FastApiHandler.get_user_recs`
(fastapi_handler.py lines 88-100): explicit `user_prods.sum() != 0` test,
first flagged index via `np.argwhere(user_prods)[0]`, truncation with the
literal `[:7]`. Errors escape; only `IndexError` is caught outside. -/
def handler_try (s : RecState) (uid : Int) :
    Except PyErr (List String × Tier × RecState) :=
  match s.june_2016 with
  | none => .error .typeError
  | some tbl =>
    match filterUser tbl uid with
    | [] => .error .indexError
    | r :: _ =>
      if r.flags.count true ≠ 0 then
        match argwhere r.flags with
        | [] => .error .indexError
        | i :: _ =>
          match pop_name_at s.default i with
          | .error e => .error e
          | .ok name =>
            .ok (pySliceTo [name] 7, .personalizedNonEmpty, incWith s)
      else
        .ok ([], .personalizedEmpty, incWo s)

/-- Model of `FastApiHandler.get_user_recs` of fastapi_handler.py (lines 81-110):
run the `try:` body; `except IndexError:` answers with the first `7`
popularity entries and increments `new_clients_requests_count`; every
other exception propagates to the caller. `top_k` is accepted but never
used by this implementation. -/
def handler_get_user_recs (s : RecState) (uid : Int) (top_k : Int) :
    Except PyErr (List String × Tier × RecState) :=
  match handler_try s uid with
  | .error .indexError =>
    match s.default with
    | none => .error .typeError
    | some pop => .ok (pySliceTo pop 7, .fallback, incNew s)
  | r => r

/-- Model of `Recommendations.get_default` of fastapi_app.py (lines 100-110):
first `top_k` popularity entries via `[:top_k]`, incrementing
`new_clients_requests_count`. -/
def app_get_default (s : RecState) (top_k : Int) :
    Except PyErr (List String × RecState) :=
  match s.default with
  | none => .error .typeError
  | some pop => .ok (pySliceTo pop top_k, incNew s)

/-- Model of `FastApiHandler.get_pop_recs` of fastapi_handler.py (lines 68-79):
first `top_k` popularity entries via `[:top_k]`, incrementing
`new_clients_requests_count`. -/
def handler_get_pop_recs (s : RecState) (top_k : Int) :
    Except PyErr (List String × RecState) :=
  match s.default with
  | none => .error .typeError
  | some pop => .ok (pySliceTo pop top_k, incNew s)

/-- Projection of a lookup result to its observable answer (the
recommendation list and the tier), discarding the updated state. -/
def outcomeOf (x : Except PyErr (List String × Tier × RecState)) :
    Except PyErr (List String × Tier) :=
  match x with
  | .error e => .error e
  | .ok (recs, t, _) => .ok (recs, t)

/-- The state update performed by the stats increment of a given tier. -/
def incTier (s : RecState) : Tier → RecState
  | .personalizedNonEmpty => incWith s
  | .personalizedEmpty => incWo s
  | .fallback => incNew s

/-! ### Concrete tables and states used as test inputs -/

/-- A 17-flag all-false prediction row for user 9 (do-not-disturb). -/
def rowAllFalse : UserRow :=
  ⟨9, [false, false, false, false, false, false, false, false, false,
       false, false, false, false, false, false, false, false]⟩

/-- A prediction row for user 5 with a single flag at index 1. -/
def rowOneFlag : UserRow := ⟨5, [false, true, false]⟩

/-- A prediction row for user 1 with flags at indices 0 and 1. -/
def rowTwoFlags : UserRow := ⟨1, [true, true, false]⟩

/-- A prediction row for user 1 whose first flagged index is 1. -/
def rowGap : UserRow := ⟨1, [false, true, false]⟩

/-- A three-entry popularity table in rank order. -/
def popABC : List String := ["Current Account", "Credit Card", "Loans"]

/-- An eight-entry popularity table in rank order. -/
def popEight : List String :=
  ["P1", "P2", "P3", "P4", "P5", "P6", "P7", "P8"]

/-- Loaded state holding only the all-false user 9. -/
def sW1 : RecState := ⟨some [rowAllFalse], some popABC, 0, 0, 0⟩

/-- Loaded state holding only the one-flag user 5. -/
def sW2 : RecState := ⟨some [rowOneFlag], some popABC, 0, 0, 0⟩

/-- Loaded state holding only the two-flag user 1. -/
def sC2 : RecState := ⟨some [rowTwoFlags], some popABC, 0, 0, 0⟩

/-- Loaded state with an empty prediction table and eight popular
products: every user id is absent. -/
def sC3 : RecState := ⟨some [], some popEight, 0, 0, 0⟩

/-- State whose prediction table never loaded but whose popularity table
did. -/
def sC4 : RecState := ⟨none, some ["Current Account", "Credit Card"], 0, 0, 0⟩

/-- Loaded state with an empty prediction table and three popular
products. -/
def sC5 : RecState := ⟨some [], some popABC, 0, 0, 0⟩

/-- Loaded state whose popularity table has a single entry, shorter than
the first flagged index of user 1. -/
def sC7 : RecState := ⟨some [rowGap], some ["Current Account"], 0, 0, 0⟩

/-! ### Basic lemmas about the Python-semantics helpers -/

theorem argwhere_eq_nil_of_count {flags : List Bool}
    (h : flags.count true = 0) : argwhere flags = [] := by
  have hmem : true ∉ flags := List.count_eq_zero.mp h
  unfold argwhere
  apply List.filter_eq_nil_iff.mpr
  intro i _ hp
  cases hg : flags.get? i with
  | none =>
    rw [List.getD_eq_get?, hg] at hp
    simp at hp
  | some b =>
    rw [List.getD_eq_get?, hg] at hp
    simp at hp
    exact hmem (hp ▸ List.get?_mem hg)

theorem count_true_ne_zero_of_argwhere {flags : List Bool} {i : Nat}
    {l : List Nat} (h : argwhere flags = i :: l) :
    flags.count true ≠ 0 := by
  have hi : i ∈ argwhere flags := by
    rw [h]; exact List.mem_cons_self i l
  unfold argwhere at hi
  obtain ⟨-, hp⟩ := List.mem_filter.mp hi
  cases hg : flags.get? i with
  | none =>
    rw [List.getD_eq_get?, hg] at hp
    simp at hp
  | some b =>
    rw [List.getD_eq_get?, hg] at hp
    simp at hp
    intro hc
    exact List.count_eq_zero.mp hc (hp ▸ List.get?_mem hg)

theorem pySliceTo_nonneg {α : Type} (xs : List α) {k : Int} (hk : 0 ≤ k) :
    pySliceTo xs k = xs.take k.toNat := by
  unfold pySliceTo
  rw [if_pos hk]

theorem pySliceTo_neg {α : Type} (xs : List α) {k : Int} (hk : k < 0) :
    pySliceTo xs k = xs.take (xs.length - (-k).toNat) := by
  unfold pySliceTo
  rw [if_neg (by omega)]

theorem pySliceTo_singleton {α : Type} (a : α) {k : Int} (hk : 1 ≤ k) :
    pySliceTo [a] k = [a] := by
  rw [pySliceTo_nonneg _ (by omega)]
  apply List.take_of_length_le
  simp
  omega

/-! ### Branch-reduction lemmas shared by several claims -/

theorem app_personalized_eq
    (s : RecState) (tbl : List UserRow) (row : UserRow) (rest : List UserRow)
    (pop : List String) (uid k : Int) (i : Nat) (irest : List Nat)
    (name : String)
    (hj : s.june_2016 = some tbl)
    (hm : filterUser tbl uid = row :: rest)
    (ha : argwhere row.flags = i :: irest)
    (hd : s.default = some pop)
    (hn : pop.get? i = some name) :
    app_get_user_recs s uid k =
      .ok (pySliceTo [name] k, Tier.personalizedNonEmpty, incWith s) := by
  simp only [app_get_user_recs, app_lookup_user, app_inner, pop_name_at,
    hj, hm, ha, hd, hn]

theorem handler_personalized_eq
    (s : RecState) (tbl : List UserRow) (row : UserRow) (rest : List UserRow)
    (pop : List String) (uid k : Int) (i : Nat) (irest : List Nat)
    (name : String)
    (hj : s.june_2016 = some tbl)
    (hm : filterUser tbl uid = row :: rest)
    (ha : argwhere row.flags = i :: irest)
    (hd : s.default = some pop)
    (hn : pop.get? i = some name) :
    handler_get_user_recs s uid k =
      .ok ([name], Tier.personalizedNonEmpty, incWith s) := by
  simp only [handler_get_user_recs, handler_try, hj, hm, ha, hd, hn,
    pop_name_at, if_pos (count_true_ne_zero_of_argwhere ha),
    pySliceTo_singleton name (by omega : (1 : Int) ≤ 7)]

theorem app_ok_cases
    (s : RecState) (uid k : Int) (r : List String) (t : Tier)
    (s' : RecState)
    (h : app_get_user_recs s uid k = .ok (r, t, s')) :
    (t = Tier.personalizedNonEmpty ∧ s' = incWith s) ∨
    (t = Tier.personalizedEmpty ∧ s' = incWo s) ∨
    (t = Tier.fallback ∧ s' = s) := by
  unfold app_get_user_recs at h
  repeat' split at h
  all_goals simp_all

theorem handler_ok_cases
    (s : RecState) (uid k : Int) (r : List String) (t : Tier)
    (s' : RecState)
    (h : handler_get_user_recs s uid k = .ok (r, t, s')) :
    (t = Tier.personalizedNonEmpty ∧ s' = incWith s) ∨
    (t = Tier.personalizedEmpty ∧ s' = incWo s) ∨
    (t = Tier.fallback ∧ s' = incNew s) := by
  unfold handler_get_user_recs handler_try at h
  repeat' split at h
  all_goals simp_all

theorem incTier_tables (s : RecState) (t : Tier) :
    (incTier s t).june_2016 = s.june_2016 ∧
    (incTier s t).default = s.default := by
  cases t <;> simp [incTier, incWith, incWo, incNew]

theorem incTier_tierCount (s : RecState) (t : Tier) :
    tierCount (incTier s t) t = tierCount s t + 1 := by
  cases t <;> simp [incTier, incWith, incWo, incNew, tierCount]

theorem incTier_statsSum (s : RecState) (t : Tier) :
    statsSum (incTier s t) = statsSum s + 1 := by
  cases t <;> simp [incTier, incWith, incWo, incNew, statsSum] <;> omega

theorem app_outcome_congr
    (s s' : RecState) (uid k : Int)
    (hj : s'.june_2016 = s.june_2016) (hd : s'.default = s.default) :
    outcomeOf (app_get_user_recs s' uid k) =
      outcomeOf (app_get_user_recs s uid k) := by
  unfold app_get_user_recs
  rw [hj, hd]
  repeat' split
  all_goals rfl

theorem handler_try_outcome_congr
    (s s' : RecState) (uid : Int)
    (hj : s'.june_2016 = s.june_2016) (hd : s'.default = s.default) :
    outcomeOf (handler_try s' uid) = outcomeOf (handler_try s uid) := by
  unfold handler_try
  rw [hj, hd]
  repeat' split
  all_goals rfl

theorem handler_wrapper_outcome (s : RecState) (uid k : Int) :
    outcomeOf (handler_get_user_recs s uid k) =
      (match outcomeOf (handler_try s uid), s.default with
       | .error .indexError, none => .error .typeError
       | .error .indexError, some pop => .ok (pySliceTo pop 7, Tier.fallback)
       | .error e, _ => .error e
       | .ok p, _ => .ok p) := by
  unfold handler_get_user_recs
  cases handler_try s uid with
  | error e =>
    cases e with
    | indexError => cases s.default <;> rfl
    | keyError => rfl
    | typeError => rfl
  | ok p =>
    obtain ⟨r, t, st⟩ := p
    cases s.default <;> rfl

theorem handler_outcome_congr
    (s s' : RecState) (uid k : Int)
    (hj : s'.june_2016 = s.june_2016) (hd : s'.default = s.default) :
    outcomeOf (handler_get_user_recs s' uid k) =
      outcomeOf (handler_get_user_recs s uid k) := by
  rw [handler_wrapper_outcome, handler_wrapper_outcome,
    handler_try_outcome_congr s s' uid hj hd, hd]

/-! ### Claim theorems -/

/-- C1: a user present in the prediction table with an all-false flag
vector receives the empty list with the do-not-disturb tier
(`PersonalizedEmpty`, i.e. the `existing_clients_wo_recs_requests_count`
branch) in BOTH implementations, for every positive top_k; neither
implementation falls back to the popularity list. -/
theorem c1_all_false_personalized_empty
    (s : RecState) (tbl : List UserRow) (row : UserRow) (rest : List UserRow)
    (uid top_k : Int)
    (hj : s.june_2016 = some tbl)
    (hm : filterUser tbl uid = row :: rest)
    (hf : row.flags.count true = 0)
    (hk : 0 < top_k) :
    app_get_user_recs s uid top_k =
      .ok ([], Tier.personalizedEmpty, incWo s) ∧
    handler_get_user_recs s uid top_k =
      .ok ([], Tier.personalizedEmpty, incWo s) := by
  constructor
  · simp only [app_get_user_recs, app_lookup_user, app_inner, hj, hm,
      argwhere_eq_nil_of_count hf]
  · have hc : ¬ (row.flags.count true ≠ 0) := by simp [hf]
    simp only [handler_get_user_recs, handler_try, hj, hm, if_neg hc]

/-- C1 witness: user 9 of `sW1` has the all-false 17-flag vector. -/
theorem c1_witness :
    app_get_user_recs sW1 9 7 = .ok ([], Tier.personalizedEmpty, incWo sW1) ∧
    handler_get_user_recs sW1 9 7 =
      .ok ([], Tier.personalizedEmpty, incWo sW1) :=
  c1_all_false_personalized_empty sW1 [rowAllFalse] rowAllFalse [] 9 7
    rfl rfl (by decide) (by decide)

/-- C2 counterexample: user 1 of `sC2` has flags at product indices 0 and
1, so the claim demands both display names (all flagged products,
truncated to top_k = 7), yet both implementations answer with the single
name at the FIRST flagged index only: `np.argwhere(v)[0]` drops the second
flag. -/
theorem c2_counterexample :
    app_get_user_recs sC2 1 7 =
      .ok (["Current Account"], Tier.personalizedNonEmpty, incWith sC2) ∧
    handler_get_user_recs sC2 1 7 =
      .ok (["Current Account"], Tier.personalizedNonEmpty, incWith sC2) ∧
    (["Current Account"] : List String) ≠ ["Current Account", "Credit Card"] :=
  ⟨rfl, rfl, by decide⟩

/-- C2 (amended): for a present user with at least one set flag whose
FIRST flagged index resolves in the popularity table, both implementations
return at most ONE display name — the name at that first flagged index —
with tier `PersonalizedNonEmpty`; the app implementation slices it with
`[:top_k]` while the handler implementation slices with the literal
`[:7]`; flags after the first are ignored and no popularity padding is
appended. -/
theorem c2_personalized_first_flag
    (s : RecState) (tbl : List UserRow) (row : UserRow) (rest : List UserRow)
    (pop : List String) (uid top_k : Int) (i : Nat) (irest : List Nat)
    (name : String)
    (hj : s.june_2016 = some tbl)
    (hm : filterUser tbl uid = row :: rest)
    (ha : argwhere row.flags = i :: irest)
    (hd : s.default = some pop)
    (hn : pop.get? i = some name) :
    app_get_user_recs s uid top_k =
      .ok (pySliceTo [name] top_k, Tier.personalizedNonEmpty, incWith s) ∧
    handler_get_user_recs s uid top_k =
      .ok ([name], Tier.personalizedNonEmpty, incWith s) :=
  ⟨app_personalized_eq s tbl row rest pop uid top_k i irest name
      hj hm ha hd hn,
   handler_personalized_eq s tbl row rest pop uid top_k i irest name
      hj hm ha hd hn⟩

/-- C2 witness: user 5 of `sW2` has its only flag at index 1, whose
popularity name is "Credit Card". -/
theorem c2_witness :
    app_get_user_recs sW2 5 3 =
      .ok (pySliceTo ["Credit Card"] 3, Tier.personalizedNonEmpty, incWith sW2) ∧
    handler_get_user_recs sW2 5 3 =
      .ok (["Credit Card"], Tier.personalizedNonEmpty, incWith sW2) :=
  c2_personalized_first_flag sW2 [rowOneFlag] rowOneFlag [] popABC 5 3 1 []
    "Credit Card" rfl rfl rfl rfl rfl

/-- C7 counterexample: user 1 of `sC7` has first flagged index 1 but the
popularity table holds a single entry, so the name lookup raises
`KeyError`: the handler implementation fails the WHOLE request (the error
is not `IndexError`, the only kind it catches), and the app implementation
reclassifies the request as the do-not-disturb tier — the entry is not
skipped and the tier does change. -/
theorem c7_counterexample :
    handler_get_user_recs sC7 1 7 = .error PyErr.keyError ∧
    app_get_user_recs sC7 1 7 =
      .ok ([], Tier.personalizedEmpty, incWo sC7) :=
  ⟨rfl, rfl⟩

/-- C7 (amended): a first flagged index with no popularity-table entry is
NOT skipped: the handler implementation surfaces the `KeyError` as a
failure of the whole request, while the app implementation catches it in
the inner bare `except:` and answers as the do-not-disturb tier (empty
list, `existing_clients_wo_recs_requests_count` increment), changing the
tier classification. -/
theorem c7_gap_not_skipped
    (s : RecState) (tbl : List UserRow) (row : UserRow) (rest : List UserRow)
    (pop : List String) (uid top_k : Int) (i : Nat) (irest : List Nat)
    (hj : s.june_2016 = some tbl)
    (hm : filterUser tbl uid = row :: rest)
    (ha : argwhere row.flags = i :: irest)
    (hd : s.default = some pop)
    (hn : pop.get? i = none) :
    handler_get_user_recs s uid top_k = .error PyErr.keyError ∧
    app_get_user_recs s uid top_k =
      .ok ([], Tier.personalizedEmpty, incWo s) := by
  constructor
  · simp only [handler_get_user_recs, handler_try, hj, hm, ha, hd, hn,
      pop_name_at, if_pos (count_true_ne_zero_of_argwhere ha)]
  · simp only [app_get_user_recs, app_lookup_user, app_inner, pop_name_at,
      hj, hm, ha, hd, hn]

/-- C7 witness: the `sC7` gap instance, via the amended theorem. -/
theorem c7_witness :
    handler_get_user_recs sC7 1 9 = .error PyErr.keyError ∧
    app_get_user_recs sC7 1 9 =
      .ok ([], Tier.personalizedEmpty, incWo sC7) :=
  c7_gap_not_skipped sC7 [rowGap] rowGap [] ["Current Account"] 1 9 1 []
    rfl rfl rfl rfl rfl

/-- C5 counterexample: a fallback-resolved call of the app implementation
returns the state unchanged — `new_clients_requests_count` stays 0 instead
of being incremented by 1 as the claim demands for the Fallback tier, so
the counter sum no longer tracks the number of calls. -/
theorem c5_counterexample :
    app_get_user_recs sC5 99 3 =
      .ok (["Current Account", "Credit Card", "Loans"], Tier.fallback,
        sC5) ∧
    statsSum sC5 = 0 :=
  ⟨rfl, rfl⟩

/-- C5 (amended): the handler implementation increments exactly the
counter of the resolved tier by 1 on every successful call (so its counter sum
tracks its calls, and counters only grow); the app implementation does the
same for the two personalized tiers but leaves ALL counters unchanged when
`get_user_recs` resolves to the Fallback tier. -/
theorem c5_stats_increments
    (s : RecState) (uid k : Int)
    (rH rA : List String) (tH tA : Tier) (sH sA : RecState)
    (hH : handler_get_user_recs s uid k = .ok (rH, tH, sH))
    (hA : app_get_user_recs s uid k = .ok (rA, tA, sA)) :
    sH = incTier s tH ∧
    tierCount sH tH = tierCount s tH + 1 ∧
    statsSum sH = statsSum s + 1 ∧
    ((tA = Tier.fallback ∧ sA = s) ∨
     (tA ≠ Tier.fallback ∧ sA = incTier s tA)) := by
  have hs : sH = incTier s tH := by
    rcases handler_ok_cases s uid k rH tH sH hH with
      ⟨h1, h2⟩ | ⟨h1, h2⟩ | ⟨h1, h2⟩ <;> subst h1 <;> subst h2 <;> rfl
  refine ⟨hs, hs ▸ incTier_tierCount s tH, hs ▸ incTier_statsSum s tH, ?_⟩
  rcases app_ok_cases s uid k rA tA sA hA with
    ⟨h1, h2⟩ | ⟨h1, h2⟩ | ⟨h1, h2⟩
  · subst h1; subst h2; right; exact ⟨by decide, rfl⟩
  · subst h1; subst h2; right; exact ⟨by decide, rfl⟩
  · subst h1; subst h2; left; exact ⟨rfl, rfl⟩

/-- C5 witness: the absent user 99 of `sC5` resolves to Fallback in both
implementations; the handler increments its counter, the app does not. -/
theorem c5_witness :
    incNew sC5 = incTier sC5 Tier.fallback ∧
    tierCount (incNew sC5) Tier.fallback =
      tierCount sC5 Tier.fallback + 1 ∧
    statsSum (incNew sC5) = statsSum sC5 + 1 ∧
    ((Tier.fallback = Tier.fallback ∧ sC5 = sC5) ∨
     (Tier.fallback ≠ Tier.fallback ∧ sC5 = incTier sC5 Tier.fallback)) :=
  c5_stats_increments sC5 99 3
    ["Current Account", "Credit Card", "Loans"]
    ["Current Account", "Credit Card", "Loans"]
    Tier.fallback Tier.fallback (incNew sC5) sC5 rfl rfl

/-- C8: resolve is idempotent on its observable answer in both
implementations: a second call with identical arguments (and no
intervening load) returns the identical recommendation list and tier,
because the first call left both reference tables untouched — the stats
counters are the only mutated state. -/
theorem c8_idempotent
    (s : RecState) (uid k : Int)
    (rH rA : List String) (tH tA : Tier) (sH sA : RecState)
    (hH : handler_get_user_recs s uid k = .ok (rH, tH, sH))
    (hA : app_get_user_recs s uid k = .ok (rA, tA, sA)) :
    (sH.june_2016 = s.june_2016 ∧ sH.default = s.default ∧
      outcomeOf (handler_get_user_recs sH uid k) = .ok (rH, tH)) ∧
    (sA.june_2016 = s.june_2016 ∧ sA.default = s.default ∧
      outcomeOf (app_get_user_recs sA uid k) = .ok (rA, tA)) := by
  have hcH : sH = incTier s tH := by
    rcases handler_ok_cases s uid k rH tH sH hH with
      ⟨h1, h2⟩ | ⟨h1, h2⟩ | ⟨h1, h2⟩ <;> subst h1 <;> subst h2 <;> rfl
  have htab : sH.june_2016 = s.june_2016 ∧ sH.default = s.default := by
    rw [hcH]; exact incTier_tables s tH
  have atab : sA.june_2016 = s.june_2016 ∧ sA.default = s.default := by
    rcases app_ok_cases s uid k rA tA sA hA with
      ⟨h1, h2⟩ | ⟨h1, h2⟩ | ⟨h1, h2⟩ <;> subst h2 <;>
      simp [incWith, incWo]
  refine ⟨⟨htab.1, htab.2, ?_⟩, ⟨atab.1, atab.2, ?_⟩⟩
  · rw [handler_outcome_congr s sH uid k htab.1 htab.2, hH]; rfl
  · rw [app_outcome_congr s sA uid k atab.1 atab.2, hA]; rfl

/-- C8 witness: repeating the Fallback lookup of the absent user 99 from
the updated states yields the identical list and tier. -/
theorem c8_witness :
    ((incNew sC5).june_2016 = sC5.june_2016 ∧
      (incNew sC5).default = sC5.default ∧
      outcomeOf (handler_get_user_recs (incNew sC5) 99 3) =
        .ok (["Current Account", "Credit Card", "Loans"], Tier.fallback)) ∧
    (sC5.june_2016 = sC5.june_2016 ∧ sC5.default = sC5.default ∧
      outcomeOf (app_get_user_recs sC5 99 3) =
        .ok (["Current Account", "Credit Card", "Loans"], Tier.fallback)) :=
  c8_idempotent sC5 99 3
    ["Current Account", "Credit Card", "Loans"]
    ["Current Account", "Credit Card", "Loans"]
    Tier.fallback Tier.fallback (incNew sC5) sC5 rfl rfl

/-- C10: for a present user with at least one set flag, a first flagged
index that resolves in the popularity table, and top_k ≥ 1, BOTH
implementations return exactly one display name — the popularity name at
the first flagged index — however many flags are set, because
`np.argwhere(vector)[0]` selects only the first flagged position. -/
theorem c10_single_name_first_flag
    (s : RecState) (tbl : List UserRow) (row : UserRow) (rest : List UserRow)
    (pop : List String) (uid top_k : Int) (i : Nat) (irest : List Nat)
    (name : String)
    (hj : s.june_2016 = some tbl)
    (hm : filterUser tbl uid = row :: rest)
    (ha : argwhere row.flags = i :: irest)
    (hd : s.default = some pop)
    (hn : pop.get? i = some name)
    (hk : 1 ≤ top_k) :
    app_get_user_recs s uid top_k =
      .ok ([name], Tier.personalizedNonEmpty, incWith s) ∧
    handler_get_user_recs s uid top_k =
      .ok ([name], Tier.personalizedNonEmpty, incWith s) := by
  refine ⟨?_, handler_personalized_eq s tbl row rest pop uid top_k i irest
    name hj hm ha hd hn⟩
  rw [app_personalized_eq s tbl row rest pop uid top_k i irest name
    hj hm ha hd hn, pySliceTo_singleton name hk]

/-- C3 counterexample: with the eight-entry popularity table and the
absent user 5, the claim demands the first min(2, 8) = 2 entries for
k = 2, but the handler implementation answers with the literal first 7
entries, ignoring the supplied k. -/
theorem c3_counterexample :
    handler_get_user_recs sC3 5 2 =
      .ok (["P1", "P2", "P3", "P4", "P5", "P6", "P7"], Tier.fallback,
        incNew sC3) ∧
    (["P1", "P2", "P3", "P4", "P5", "P6", "P7"] : List String).length ≠ 2 :=
  ⟨rfl, by decide⟩

/-- C3 (amended): for a user id absent from the prediction table and
k ≥ 0, the app implementation returns exactly the first min(k, N)
popularity entries in rank order with the fallback tier (leaving the state
untouched), while the handler implementation returns the first min(7, N)
entries regardless of k (incrementing `new_clients_requests_count`). -/
theorem c3_fallback_front
    (s : RecState) (tbl : List UserRow) (pop : List String) (uid k : Int)
    (hj : s.june_2016 = some tbl)
    (hm : filterUser tbl uid = [])
    (hd : s.default = some pop)
    (hk : 0 ≤ k) :
    app_get_user_recs s uid k = .ok (pop.take k.toNat, Tier.fallback, s) ∧
    handler_get_user_recs s uid k =
      .ok (pop.take 7, Tier.fallback, incNew s) ∧
    (pop.take k.toNat).length = min k.toNat pop.length ∧
    (pop.take 7).length = min 7 pop.length := by
  refine ⟨?_, ?_, List.length_take _ _, List.length_take _ _⟩
  · simp only [app_get_user_recs, app_lookup_user, hj, hm,
      hd, pySliceTo_nonneg pop hk]
  · simp only [handler_get_user_recs, handler_try, hj, hm, hd,
      pySliceTo_nonneg pop (by omega : (0 : Int) ≤ 7)]
    rfl

/-- C3 witness: the absent user 5 of `sC3` at k = 2. -/
theorem c3_witness :
    app_get_user_recs sC3 5 2 =
      .ok (popEight.take (2 : Int).toNat, Tier.fallback, sC3) ∧
    handler_get_user_recs sC3 5 2 =
      .ok (popEight.take 7, Tier.fallback, incNew sC3) ∧
    (popEight.take (2 : Int).toNat).length = min (2 : Int).toNat popEight.length ∧
    (popEight.take 7).length = min 7 popEight.length :=
  c3_fallback_front sC3 [] popEight 5 2 rfl rfl rfl (by decide)

/-- C4 counterexample: in `sC4` the prediction table never loaded (the
`_recs` dict still holds `None`), yet the app implementation answers the
popularity fallback list instead of surfacing an error: the outer bare
`except:` swallows the `TypeError` and silently degrades. -/
theorem c4_counterexample :
    app_get_user_recs sC4 1 7 =
      .ok (["Current Account", "Credit Card"], Tier.fallback, sC4) :=
  rfl

/-- C4 (amended): when the prediction table is unavailable, the handler
implementation fails every `get_user_recs` call with the uncaught
`TypeError` (the StoreUnavailable behaviour), but the app implementation
— whenever the popularity table did load — silently answers the
popularity fallback instead of surfacing an error. -/
theorem c4_unavailable_prediction_table
    (s : RecState) (pop : List String) (uid k : Int)
    (hju : s.june_2016 = none)
    (hd : s.default = some pop) :
    handler_get_user_recs s uid k = .error PyErr.typeError ∧
    app_get_user_recs s uid k =
      .ok (pySliceTo pop k, Tier.fallback, s) := by
  constructor
  · simp only [handler_get_user_recs, handler_try, hju]
  · simp only [app_get_user_recs, app_lookup_user, hju, hd]

/-- C4 witness: the `sC4` unavailable-prediction-table instance. -/
theorem c4_witness :
    handler_get_user_recs sC4 1 7 = .error PyErr.typeError ∧
    app_get_user_recs sC4 1 7 =
      .ok (pySliceTo ["Current Account", "Credit Card"] 7, Tier.fallback,
        sC4) :=
  c4_unavailable_prediction_table sC4 ["Current Account", "Credit Card"]
    1 7 rfl rfl

/-- C6 counterexample: top_k = -1 is not clamped to a non-negative value:
with three popularity entries, both default endpoints answer the first
3 + (-1) = 2 names (Python slice semantics), not the empty list the claim
demands for every non-positive k. -/
theorem c6_counterexample :
    app_get_default sC5 (-1) =
      .ok (["Current Account", "Credit Card"], incNew sC5) ∧
    handler_get_pop_recs sC5 (-1) =
      .ok (["Current Account", "Credit Card"], incNew sC5) ∧
    (["Current Account", "Credit Card"] : List String) ≠ [] :=
  ⟨rfl, rfl, by decide⟩

/-- C6 (amended): top_k is NOT clamped; Python slice semantics apply to
the popularity-default endpoints. A negative bound k returns the first
max(N + k, 0) entries — so get_default(-5) coincides with get_default(0)
only when N ≤ 5 — while the bound 0 returns the empty list; the
`new_clients_requests_count` increment happens identically for every
bound. -/
theorem c6_no_clamping_slice_semantics
    (s : RecState) (pop : List String) (k : Int)
    (hd : s.default = some pop)
    (hneg : k < 0) :
    app_get_default s k =
      .ok (pop.take (pop.length - (-k).toNat), incNew s) ∧
    handler_get_pop_recs s k =
      .ok (pop.take (pop.length - (-k).toNat), incNew s) ∧
    app_get_default s 0 = .ok ([], incNew s) ∧
    handler_get_pop_recs s 0 = .ok ([], incNew s) := by
  refine ⟨?_, ?_, ?_, ?_⟩
  · simp only [app_get_default, hd, pySliceTo_neg pop hneg]
  · simp only [handler_get_pop_recs, hd, pySliceTo_neg pop hneg]
  · simp only [app_get_default, hd, pySliceTo_nonneg pop (le_refl 0),
      Int.toNat_zero, List.take_zero]
  · simp only [handler_get_pop_recs, hd, pySliceTo_nonneg pop (le_refl 0),
      Int.toNat_zero, List.take_zero]

/-- C6 witness: `sC5` at bound -1: two of the three names survive. -/
theorem c6_witness :
    app_get_default sC5 (-1) =
      .ok (popABC.take (popABC.length - (-(-1) : Int).toNat), incNew sC5) ∧
    handler_get_pop_recs sC5 (-1) =
      .ok (popABC.take (popABC.length - (-(-1) : Int).toNat), incNew sC5) ∧
    app_get_default sC5 0 = .ok ([], incNew sC5) ∧
    handler_get_pop_recs sC5 0 = .ok ([], incNew sC5) :=
  c6_no_clamping_slice_semantics sC5 popABC (-1) rfl (by decide)

/-- C10 witness: the two-flag user 1 of `sC2` yields the single name at
its first flagged index 0. -/
theorem c10_witness :
    app_get_user_recs sC2 1 4 =
      .ok (["Current Account"], Tier.personalizedNonEmpty, incWith sC2) ∧
    handler_get_user_recs sC2 1 4 =
      .ok (["Current Account"], Tier.personalizedNonEmpty, incWith sC2) :=
  c10_single_name_first_flag sC2 [rowTwoFlags] rowTwoFlags [] popABC 1 4 0
    [1] "Current Account" rfl rfl rfl rfl rfl (by decide)

end Recsys

-- sanity checks of the embedding on the concrete scenarios of the spec
section Sanity

open Recsys

-- PopularityTable = [Current Account, Credit Card, Loans]; user 42 absent;
-- resolve(42, 2) gives the first two popular names (app implementation).
example :
    app_get_user_recs
      ⟨some [⟨7, [false, true, false]⟩], some ["Current Account", "Credit Card", "Loans"], 0, 0, 0⟩
      42 2 =
    .ok (["Current Account", "Credit Card"], Tier.fallback,
      ⟨some [⟨7, [false, true, false]⟩], some ["Current Account", "Credit Card", "Loans"], 0, 0, 0⟩) := by
  rfl

-- user 7 with a flag at the Credit Card position only.
example :
    app_get_user_recs
      ⟨some [⟨7, [false, true, false]⟩], some ["Current Account", "Credit Card", "Loans"], 0, 0, 0⟩
      7 7 =
    .ok (["Credit Card"], Tier.personalizedNonEmpty,
      ⟨some [⟨7, [false, true, false]⟩], some ["Current Account", "Credit Card", "Loans"], 1, 0, 0⟩) := by
  rfl

-- user 9 with the all-false vector.
example :
    app_get_user_recs
      ⟨some [⟨9, [false, false, false]⟩], some ["Current Account", "Credit Card", "Loans"], 0, 0, 0⟩
      9 7 =
    .ok ([], Tier.personalizedEmpty,
      ⟨some [⟨9, [false, false, false]⟩], some ["Current Account", "Credit Card", "Loans"], 0, 1, 0⟩) := by
  rfl

end Sanity
